import Mathlib

/-!
Verification development for the proxy-protocol interception core
(`src/index.ts` of the proxy-protocol package, a TypeScript rewrite of
proxywrap).

Buffers are modelled as `List Nat` (byte values).  Strings crossing the
JS string boundary are rebuilt with `Char.ofNat`.  The per-connection
interception loop (`onReadable`, lines 248-311 of `src/index.ts`) is
modelled by `processBuf`, which evaluates one pass of the loop body on
the accumulated buffer.  The monkey-patched event emitter and `restore`
(lines 199-231) are modelled by `emitOverride` / `restore` over an
explicit `EmitState`.

The byte-level header decoding is delegated by the source to the
external `proxy-protocol-js` package, which is not part of this
repository; the spec (section 6) scopes it out and gives its contract.
The definitions `identify`, `parseV1` and `parseV2` below are therefore
modelled from the spec, as documented on each of them.  Everything else
(`isHeaderCompleted`, `mapV1ProxyInfo`, `mapV2ProxyInfo`,
`defineSocketProperties`, `defaults`, the options merge, `destroy`) is
translated directly from the source.
-/

namespace ProxyWrap

/-- Interception options, from `ProxyOptions` (src/index.ts lines 5-10). -/
structure ProxyOptions where
  strict : Bool
  ignoreStrictExceptions : Bool
  overrideRemote : Bool
  timeout : Option Nat
deriving DecidableEq, Repr

/-- Default options (src/index.ts lines 12-16): `strict: true`,
`ignoreStrictExceptions: false`, `overrideRemote: true`, no timeout. -/
def defaults : ProxyOptions :=
  { strict := true, ignoreStrictExceptions := false, overrideRemote := true, timeout := none }

/-- A caller-supplied `Partial<ProxyOptions>`: every field optional. -/
structure PartialProxyOptions where
  strict : Option Bool
  ignoreStrictExceptions : Option Bool
  overrideRemote : Option Bool
  timeout : Option Nat
deriving DecidableEq, Repr

/-- The options merge `{ ...defaults, ..._options }` of the default export
(src/index.ts lines 125-128); an absent argument yields `defaults`. -/
def mergeOptions (o : Option PartialProxyOptions) : ProxyOptions :=
  match o with
  | none => defaults
  | some p =>
    { strict := p.strict.getD defaults.strict
      ignoreStrictExceptions := p.ignoreStrictExceptions.getD defaults.ignoreStrictExceptions
      overrideRemote := p.overrideRemote.getD defaults.overrideRemote
      timeout := match p.timeout with | some t => some t | none => defaults.timeout }

/-- Decoded endpoint data, from `ProxyHeaders` (src/index.ts lines 18-23). -/
structure ProxyHeaders where
  remoteAddress : String
  remotePort : Nat
  localAddress : String
  localPort : Nat
deriving DecidableEq, Repr

/-- One endpoint of a PROXY v1 header (address text and port). -/
structure Peer where
  ipAddress : String
  port : Nat
deriving DecidableEq, Repr

/-- Result of parsing a PROXY v1 header: the source and destination peers. -/
structure V1Info where
  source : Peer
  destination : Peer
deriving DecidableEq, Repr

/-- The address block of a PROXY v2 header: either an IPv4 block (source
address bytes, source port, destination address bytes, destination port)
or some other address family. -/
inductive V2Address where
  | ipv4 (sourceAddress : List Nat) (sourcePort : Nat)
      (destinationAddress : List Nat) (destinationPort : Nat)
  | notIPv4
deriving DecidableEq, Repr

/-- Result of parsing a PROXY v2 header. -/
structure V2Info where
  proxyAddress : V2Address
deriving DecidableEq, Repr

/-- The error attached when a connection is destroyed, from
`ProtocolError` (src/errors/ProtocolError.ts): a message plus the
offending header text. -/
structure ProtocolError where
  message : String
  header : String
deriving DecidableEq, Repr

/-- The PROXY v1 ASCII magic `"PROXY"` (src/index.ts line 27). -/
def v1Header : List Nat := [80, 82, 79, 88, 89]

/-- The PROXY v2 binary magic (src/index.ts line 28). -/
def v2Header : List Nat := [13, 10, 13, 10, 0, 13, 10, 81, 85, 73, 84, 10]

/-- Bytes of a string literal (ASCII). -/
def asciiBytes (s : String) : List Nat := s.toList.map (fun c => c.toNat)

/-- `buf.toString()` on ASCII data: each byte becomes the character of
its code point. -/
def utf8Str (l : List Nat) : String := String.mk (l.map (fun b => Char.ofNat b))

/-- `buf.toString('ascii')` (used for the error header, src/index.ts line
236): bytes are masked to 7 bits. -/
def asciiStr (l : List Nat) : String := String.mk (l.map (fun b => Char.ofNat (b % 128)))

/-- Decimal digit token to number: succeeds on a nonempty all-digit list. -/
def decDigits (l : List Nat) : Option Nat :=
  if l ≠ [] ∧ l.all (fun b => decide (48 ≤ b ∧ b ≤ 57)) then
    some (l.foldl (fun a b => a * 10 + (b - 48)) 0)
  else none

/-- First index of byte `t` in a list (models `buf.indexOf`). -/
def byteIdx (t : Nat) : List Nat → Option Nat
  | [] => none
  | b :: r => if b = t then some 0 else (byteIdx t r).map (fun i => i + 1)

/-- Read one space-terminated token: the bytes before the first `0x20`,
which must be present. -/
def nextTok (l : List Nat) : Option (List Nat × List Nat) :=
  let t := l.takeWhile (fun b => b != 32)
  match l.drop t.length with
  | 32 :: r => some (t, r)
  | _ => none

/-- Read the final token of a v1 header line: the bytes before the first
CR, which must be followed by LF. -/
def endTok (l : List Nat) : Option (List Nat × List Nat) :=
  let t := l.takeWhile (fun b => b != 13)
  match l.drop t.length with
  | 13 :: 10 :: r => some (t, r)
  | _ => none

/-- Modelled from the spec: `V1ProxyProtocol.parse` of the external
`proxy-protocol-js` package (missing from src/), for the header form the
spec specifies, `"PROXY TCP4 <src> <dst> <srcPort> <dstPort>\r\n"`
(section 8): literal `PROXY`, literal `TCP4`, two nonempty address
tokens and two decimal port tokens, space-separated and CRLF-terminated;
anything after the CRLF is ignored.  Fails (the source's `catch` branch)
on any other shape. -/
def parseV1 (l : List Nat) : Option V1Info := do
  let (t0, r0) ← nextTok l
  if t0 = v1Header then
    let (t1, r1) ← nextTok r0
    if t1 = [84, 67, 80, 52] then
      let (src, r2) ← nextTok r1
      if src ≠ [] then
        let (dst, r3) ← nextTok r2
        if dst ≠ [] then
          let (spT, r4) ← nextTok r3
          let (dpT, _r5) ← endTok r4
          match decDigits spT, decDigits dpT with
          | some sp, some dp =>
            some { source := { ipAddress := utf8Str src, port := sp }
                   destination := { ipAddress := utf8Str dst, port := dp } }
          | _, _ => none
        else none
      else none
    else none
  else none

/-- Modelled from the spec: `V2ProxyProtocol.parse` of the external
`proxy-protocol-js` package (missing from src/).  Per the spec a v2
header is the 12-byte magic, a version/command byte, a family/protocol
byte, a 16-bit big-endian length at offsets 14-15, and that many address
bytes; an IPv4 (INET) block is 4 source address bytes, 4 destination
address bytes and two 16-bit big-endian ports.  Fails when the buffer is
shorter than the declared length or otherwise malformed. -/
def parseV2 (l : List Nat) : Option V2Info :=
  if l.take 12 = v2Header then
    match l.drop 12 with
    | vc :: fam :: hi :: lo :: rest =>
      if vc / 16 = 2 then
        let alen := hi * 256 + lo
        if alen ≤ rest.length then
          if fam / 16 = 1 then
            if 12 ≤ alen then
              match rest with
              | sa :: sb :: sc :: sd :: da :: db :: dc :: dd :: s1 :: s2 :: d1 :: d2 :: _ =>
                some { proxyAddress := .ipv4 [sa, sb, sc, sd] (s1 * 256 + s2)
                         [da, db, dc, dd] (d1 * 256 + d2) }
              | _ => none
            else none
          else some { proxyAddress := .notIPv4 }
        else none
      else none
    | _ => none
  else none

/-- `mapV1ProxyInfo` (src/index.ts lines 30-35). -/
def mapV1ProxyInfo (info : V1Info) : ProxyHeaders :=
  { localAddress := info.destination.ipAddress
    localPort := info.destination.port
    remoteAddress := info.source.ipAddress
    remotePort := info.source.port }

/-- `mapV2ProxyInfo` (src/index.ts lines 37-48): `null` unless the
address block is IPv4; joins the address bytes with dots. -/
def mapV2ProxyInfo (info : V2Info) : Option ProxyHeaders :=
  match info.proxyAddress with
  | .ipv4 sourceAddress sourcePort destinationAddress destinationPort =>
    some { localAddress := String.intercalate "." (destinationAddress.map (fun n => Nat.repr n))
           localPort := destinationPort
           remoteAddress := String.intercalate "." (sourceAddress.map (fun n => Nat.repr n))
           remotePort := sourcePort }
  | .notIPv4 => none

/-- Outcome of `ProxyProtocolIdentifier.identify`. -/
inductive PPVersion where
  | V1
  | V2
  | NOT
  | UNDET
deriving DecidableEq, Repr

/-- Modelled from the spec: `ProxyProtocolIdentifier.identify` of the
external `proxy-protocol-js` package (missing from src/).  Per the
decoder contract (spec section 6) the decoder classifies the bytes
presented: `V1`/`V2` on a full magic-prefix match, `NOT` when neither
magic can match, and `UNDET` (the contract's `incomplete`) when the
buffer is still a proper prefix of one of the magics, so the version
cannot be decided yet. -/
def identify (buf : List Nat) : PPVersion :=
  if buf.take 5 = v1Header then .V1
  else if buf.take 12 = v2Header then .V2
  else if buf.length < 5 ∧ buf = v1Header.take buf.length then .UNDET
  else if buf.length < 12 ∧ buf = v2Header.take buf.length then .UNDET
  else .NOT

/-- `isHeaderCompleted` (src/index.ts lines 50-82), the spec's
HeaderDecoder adapter: returns (completed, decoded header or none,
buffer rest). -/
def isHeaderCompleted (buf : List Nat) : Bool × Option ProxyHeaders × List Nat :=
  match identify buf with
  | .V1 =>
    match byteIdx 13 buf with
    | none => (true, none, buf)
    | some endOfBufferIndex =>
      match parseV1 buf with
      | some proxyInfo => (true, some (mapV1ProxyInfo proxyInfo), buf.drop (endOfBufferIndex + 2))
      | none => (true, none, buf)
  | .V2 =>
    let addrLength := buf.getD 15 0 + buf.getD 14 0 * 256
    match parseV2 buf with
    | some proxyInfo => (true, mapV2ProxyInfo proxyInfo, buf.drop (16 + addrLength))
    | none => (true, none, buf)
  | .NOT => (true, none, buf)
  | .UNDET => (false, none, buf)

/-- The error argument passed to `socket.destroy` by `destroy`
(src/index.ts lines 233-241): a `ProtocolError` carrying the buffer as
ASCII, suppressed when the failure was a strict-mode rejection and
`ignoreStrictExceptions` is set. -/
def destroyErr (options : ProxyOptions) (buf : List Nat) (msg : String)
    (wasStrict : Bool) : Option ProtocolError :=
  if wasStrict then
    if options.ignoreStrictExceptions then none
    else some { message := msg, header := asciiStr buf }
  else some { message := msg, header := asciiStr buf }

/-- Outcome of one pass of the `onReadable` loop body on the accumulated
buffer: keep accumulating, destroy the connection (with the reason and
the error delivered to `socket.destroy`), or resolve (with and without a
decoded header) handing the rest of the buffer back to the stream. -/
inductive StepResult where
  | accumulating
  | destroyed (reason : String) (err : Option ProtocolError)
  | resolvedProxy (info : ProxyHeaders) (rest : List Nat)
  | resolvedNone (rest : List Nat)
deriving DecidableEq, Repr

/-- The decode-and-resolve part of the loop body (src/index.ts lines
273-309), reached with the protocol-error flag already computed. -/
def afterDecode (options : ProxyOptions) (buf : List Nat) (protocolError : Bool) : StepResult :=
  let r := isHeaderCompleted buf
  let headerCompleted := r.1
  let proxyInfo := r.2.1
  let bufferRest := r.2.2
  if headerCompleted || protocolError then
    if options.strict ∧ proxyInfo = none then
      .destroyed "PROXY protocol malformed header"
        (destroyErr options buf "PROXY protocol malformed header" true)
    else
      match proxyInfo with
      | some i => if protocolError then .resolvedNone bufferRest else .resolvedProxy i bufferRest
      | none => .resolvedNone bufferRest
  else if 107 < buf.length then
    .destroyed "PROXY header too long" (destroyErr options buf "PROXY header too long" false)
  else
    .accumulating

/-- One pass of the `onReadable` loop body (src/index.ts lines 259-310)
on the accumulated buffer `buf`: the magic-prefix check at lines 262-271
(strict mode destroys at once, permissive mode only flags), then
`afterDecode`. -/
def processBuf (options : ProxyOptions) (buf : List Nat) : StepResult :=
  if 12 ≤ buf.length ∧ buf.take 5 ≠ v1Header ∧ buf.take 12 ≠ v2Header then
    if options.strict then
      .destroyed "non-PROXY protocol connection"
        (destroyErr options buf "non-PROXY protocol connection" true)
    else
      afterDecode options buf true
  else
    afterDecode options buf false

/-- The connection-facing fields of a socket: the physical peer's
remote address and port, plus the four derived fields injected on
resolution (absent before). -/
structure SocketState where
  remoteAddress : String
  remotePort : Nat
  clientAddress : Option String
  clientPort : Option Nat
  proxyAddress : Option String
  proxyPort : Option Nat
deriving DecidableEq, Repr

/-- `defineSocketProperties` (src/index.ts lines 98-114): install the
four derived getters, and redefine the remote accessors when
`overrideRemote` is set. -/
def defineSocketProperties (socket : SocketState) (proxyInfo : ProxyHeaders)
    (overrideRemote : Bool) : SocketState :=
  let s :=
    { socket with
      clientAddress := some proxyInfo.remoteAddress
      clientPort := some proxyInfo.remotePort
      proxyAddress := some proxyInfo.localAddress
      proxyPort := some proxyInfo.localPort }
  if overrideRemote then
    { s with remoteAddress := proxyInfo.remoteAddress, remotePort := proxyInfo.remotePort }
  else s

/-- One pass of the loop body together with its effect on the socket's
fields: properties are defined exactly when the pass resolves with a
decoded header and no protocol error (src/index.ts lines 282-284). -/
def processConn (options : ProxyOptions) (socket : SocketState) (buf : List Nat) :
    StepResult × SocketState :=
  match processBuf options buf with
  | .resolvedProxy i rest => (.resolvedProxy i rest, defineSocketProperties socket i options.overrideRemote)
  | r => (r, socket)

/-- State of the monkey-patched emitter for one connection:
`emitRestored` models `socket.emit === realEmit`, `history` the recorded
event queue (`null` once replayed), `delivered` the sequence of events
that reached the connection's original event path via `realEmit`, and
`isReadable` the flag set by the first readable event
(src/index.ts lines 192, 199-218). -/
structure EmitState where
  emitRestored : Bool
  history : Option (List String)
  delivered : List String
  isReadable : Bool
deriving DecidableEq, Repr

/-- The initial emitter state of a fresh connection. -/
def initState : EmitState :=
  { emitRestored := false, history := some [], delivered := [], isReadable := false }

/-- `restore` (src/index.ts lines 220-231): a no-op when the emitter was
already restored or the history already replayed; otherwise restores the
emitter and replays the recorded events in order through `realEmit`. -/
def restore (s : EmitState) : EmitState :=
  if s.emitRestored then s
  else
    match s.history with
    | none => s
    | some h => { s with emitRestored := true, delivered := s.delivered ++ h, history := none }

/-- The overridden `socket.emit` (src/index.ts lines 199-218) applied to
one event: once restored, events go straight through; before that, every
event is recorded, a readable event sets `isReadable` (its data handling
is modelled separately by `processBuf`), an end event before any
readable triggers `restore`, and a timeout event is additionally
forwarded through `realEmit` at once. -/
def emitOverride (s : EmitState) (event : String) : EmitState :=
  if s.emitRestored then { s with delivered := s.delivered ++ [event] }
  else
    let s := { s with history := s.history.map (fun h => h ++ [event]) }
    if event = "readable" then { s with isReadable := true }
    else if event = "end" ∧ s.isReadable = false then restore s
    else if event = "timeout" then { s with delivered := s.delivered ++ [event] }
    else s

/-- The restore call on the resolution path (src/index.ts lines 287 and
292): `socket.emit = realEmit` is executed first, then `restore()` runs
against the already-restored emitter. -/
def resolveRestore (s : EmitState) : EmitState :=
  restore { s with emitRestored := true }

/-- Run the overridden emitter over a sequence of events. -/
def runEvents (evs : List String) : EmitState :=
  evs.foldl emitOverride initState

/-- The byte sequence `"PROXY TCP4 <src> <dst> <srcPort> <dstPort>\r\n"`
for given address and port tokens: the valid v1 input form of the claim. -/
def mkV1 (src dst spT dpT : List Nat) : List Nat :=
  [80, 82, 79, 88, 89, 32, 84, 67, 80, 52, 32] ++
    src ++ [32] ++ dst ++ [32] ++ spT ++ [32] ++ dpT ++ [13, 10]

/-- A valid PROXY v2 binary header followed by a payload: the 12-byte
magic, version 2 with command nibble `cmd`, INET family with transport
nibble `tp`, the big-endian address-block length `12 + extra.length`,
the IPv4 address block (source address bytes, destination address bytes,
big-endian source and destination ports), `extra` trailing
address-block bytes, then the payload. -/
def mkV2 (cmd tp sa sb sc sd da db dc dd sp dp : Nat) (extra payload : List Nat) : List Nat :=
  [13, 10, 13, 10, 0, 13, 10, 81, 85, 73, 84, 10,
   32 + cmd, 16 + tp, (12 + extra.length) / 256, (12 + extra.length) % 256,
   sa, sb, sc, sd, da, db, dc, dd, sp / 256, sp % 256, dp / 256, dp % 256] ++
    extra ++ payload

/-! ### Helper lemmas -/

lemma takeApp (xs ys : List Nat) : (xs ++ ys).take xs.length = xs := by
  induction xs with
  | nil => rfl
  | cons a l ih => simp [List.take, ih]

lemma dropApp (xs ys : List Nat) : (xs ++ ys).drop xs.length = ys := by
  induction xs with
  | nil => rfl
  | cons a l ih => simp [ih]

lemma dropAppAdd (xs ys : List Nat) (n : Nat) : (xs ++ ys).drop (xs.length + n) = ys.drop n := by
  induction xs with
  | nil => simp
  | cons a l ih => simp [Nat.succ_add, ih]

lemma byteIdxApp (t : Nat) (xs r : List Nat) (h : ∀ x ∈ xs, x ≠ t) :
    byteIdx t (xs ++ t :: r) = some xs.length := by
  induction xs with
  | nil => simp [byteIdx]
  | cons a l ih =>
    have ha : a ≠ t := h a (by simp)
    have ih := ih (fun x hx => h x (by simp [hx]))
    simp [byteIdx, ha, ih]

lemma takeWhileAppCons (p : Nat → Bool) (xs : List Nat) (y : Nat) (ys : List Nat)
    (h : ∀ x ∈ xs, p x = true) (hy : p y = false) :
    (xs ++ y :: ys).takeWhile p = xs := by
  induction xs with
  | nil => simp [List.takeWhile, hy]
  | cons a l ih =>
    have ha : p a = true := h a (by simp)
    have ih := ih (fun x hx => h x (by simp [hx]))
    simp [List.takeWhile, ha, ih]

lemma nextTokApp (xs r : List Nat) (h : ∀ x ∈ xs, x ≠ 32) :
    nextTok (xs ++ 32 :: r) = some (xs, r) := by
  have htw : (xs ++ 32 :: r).takeWhile (fun b => b != 32) = xs :=
    takeWhileAppCons _ xs 32 r (fun x hx => by simp [h x hx]) (by simp)
  have hdr : (xs ++ 32 :: r).drop xs.length = 32 :: r := dropApp xs (32 :: r)
  simp [nextTok, htw, hdr]

lemma endTokApp (xs r : List Nat) (h : ∀ x ∈ xs, x ≠ 13) :
    endTok (xs ++ 13 :: 10 :: r) = some (xs, r) := by
  have htw : (xs ++ 13 :: 10 :: r).takeWhile (fun b => b != 13) = xs :=
    takeWhileAppCons _ xs 13 (10 :: r) (fun x hx => by simp [h x hx]) (by simp)
  have hdr : (xs ++ 13 :: 10 :: r).drop xs.length = 13 :: 10 :: r := dropApp xs (13 :: 10 :: r)
  simp [endTok, htw, hdr]

lemma decDigits_bytes {l : List Nat} {n : Nat} (h : decDigits l = some n) :
    ∀ b ∈ l, b ≠ 32 ∧ b ≠ 13 := by
  intro b hb
  unfold decDigits at h
  split at h
  · rename_i hcond
    have := hcond.2
    rw [List.all_eq_true] at this
    have hb57 := this b hb
    simp at hb57
    omega
  · exact absurd h (by simp)

lemma identify_undet_len {buf : List Nat} (h : identify buf = .UNDET) : buf.length < 12 := by
  unfold identify at h
  split at h
  · exact absurd h (by simp)
  · split at h
    · exact absurd h (by simp)
    · split at h
      · rename_i hc; omega
      · split at h
        · rename_i hc; omega
        · exact absurd h (by simp)

lemma hc_undet {buf : List Nat} (h : (isHeaderCompleted buf).1 = false) :
    identify buf = .UNDET := by
  unfold isHeaderCompleted at h
  cases hiv : identify buf with
  | V1 =>
    rw [hiv] at h
    cases hb : byteIdx 13 buf with
    | none => simp [hb] at h
    | some i =>
      cases hp : parseV1 buf with
      | none => simp [hb, hp] at h
      | some info => simp [hb, hp] at h
  | V2 =>
    rw [hiv] at h
    cases hp : parseV2 buf with
    | none => simp [hp] at h
    | some info => simp [hp] at h
  | NOT => rw [hiv] at h; simp at h
  | UNDET => rfl

lemma hc_false_parts {buf : List Nat} (h : (isHeaderCompleted buf).1 = false) :
    isHeaderCompleted buf = (false, none, buf) := by
  have hu := hc_undet h
  unfold isHeaderCompleted
  rw [hu]

lemma afterDecode_completed {opts : ProxyOptions} {buf : List Nat} {pe : Bool}
    {info : Option ProxyHeaders} {rest : List Nat}
    (hhc : isHeaderCompleted buf = (true, info, rest)) :
    afterDecode opts buf pe =
      if opts.strict ∧ info = none then
        .destroyed "PROXY protocol malformed header"
          (destroyErr opts buf "PROXY protocol malformed header" true)
      else
        match info with
        | some i => if pe then .resolvedNone rest else .resolvedProxy i rest
        | none => .resolvedNone rest := by
  unfold afterDecode
  simp [hhc]
  cases info <;> rfl

lemma processBuf_acc {opts : ProxyOptions} {buf : List Nat}
    (h : processBuf opts buf = .accumulating) : buf.length < 12 := by
  by_cases hcf : (isHeaderCompleted buf).1 = false
  · exact identify_undet_len (hc_undet hcf)
  · exfalso
    rcases hhc : isHeaderCompleted buf with ⟨c, info, rest⟩
    rw [hhc] at hcf
    simp at hcf
    subst hcf
    unfold processBuf at h
    split at h
    · split at h
      · simp at h
      · rw [afterDecode_completed hhc] at h
        split at h
        · simp at h
        · cases info <;> simp at h
    · rw [afterDecode_completed hhc] at h
      split at h
      · simp at h
      · cases info <;> simp at h

lemma processBuf_not_toolong {opts : ProxyOptions} {buf : List Nat} {e : Option ProtocolError} :
    processBuf opts buf ≠ .destroyed "PROXY header too long" e := by
  intro h
  by_cases hcf : (isHeaderCompleted buf).1 = false
  · have hlen := identify_undet_len (hc_undet hcf)
    have hparts := hc_false_parts hcf
    unfold processBuf at h
    split at h
    · rename_i hpe
      exact absurd hpe.1 (by omega)
    · unfold afterDecode at h
      rw [hparts] at h
      simp at h
      split at h
      · rename_i hlong
        exact absurd hlong (by omega)
      · exact absurd h (by simp)
  · rcases hhc : isHeaderCompleted buf with ⟨c, info, rest⟩
    rw [hhc] at hcf
    simp at hcf
    subst hcf
    unfold processBuf at h
    split at h
    · split at h
      · simp at h
      · rw [afterDecode_completed hhc] at h
        split at h
        · simp at h
        · cases info <;> simp at h
    · rw [afterDecode_completed hhc] at h
      split at h
      · simp at h
      · cases info <;> simp at h

lemma processBuf_short_not_nonproxy {opts : ProxyOptions} {buf : List Nat}
    {e : Option ProtocolError} (hlen : buf.length < 12) :
    processBuf opts buf ≠ .destroyed "non-PROXY protocol connection" e := by
  intro h
  unfold processBuf at h
  split at h
  · rename_i hpe
    exact absurd hpe.1 (by omega)
  · by_cases hcf : (isHeaderCompleted buf).1 = false
    · have hparts := hc_false_parts hcf
      unfold afterDecode at h
      rw [hparts] at h
      simp at h
      split at h
      · simp at h
      · exact absurd h (by simp)
    · rcases hhc : isHeaderCompleted buf with ⟨c, info, rest⟩
      rw [hhc] at hcf
      simp at hcf
      subst hcf
      rw [afterDecode_completed hhc] at h
      split at h
      · simp at h
      · cases info <;> simp at h

lemma memAppNe {t : Nat} {xs ys : List Nat} (hx : ∀ b ∈ xs, b ≠ t) (hy : ∀ b ∈ ys, b ≠ t) :
    ∀ b ∈ xs ++ ys, b ≠ t := by
  intro b hb
  rcases List.mem_append.1 hb with h | h
  · exact hx b h
  · exact hy b h

lemma parseV1_mkV1 {src dst spT dpT : List Nat} {sp dp : Nat} (payload : List Nat)
    (hsrcne : src ≠ []) (hdstne : dst ≠ [])
    (hsrc : ∀ b ∈ src, b ≠ 32 ∧ b ≠ 13) (hdst : ∀ b ∈ dst, b ≠ 32 ∧ b ≠ 13)
    (hsp : decDigits spT = some sp) (hdp : decDigits dpT = some dp) :
    parseV1 (mkV1 src dst spT dpT ++ payload) =
      some { source := { ipAddress := utf8Str src, port := sp }
             destination := { ipAddress := utf8Str dst, port := dp } } := by
  have hspb := decDigits_bytes hsp
  have hdpb := decDigits_bytes hdp
  have e0 : mkV1 src dst spT dpT ++ payload
      = v1Header ++ 32 :: ([84, 67, 80, 52] ++ 32 ::
          (src ++ 32 :: (dst ++ 32 :: (spT ++ 32 :: (dpT ++ 13 :: 10 :: payload))))) := by
    simp [mkV1, v1Header, List.append_assoc]
  have n0 := nextTokApp v1Header
    ([84, 67, 80, 52] ++ 32 :: (src ++ 32 :: (dst ++ 32 :: (spT ++ 32 :: (dpT ++ 13 :: 10 :: payload)))))
    (by decide)
  have n1 := nextTokApp [84, 67, 80, 52]
    (src ++ 32 :: (dst ++ 32 :: (spT ++ 32 :: (dpT ++ 13 :: 10 :: payload)))) (by decide)
  have n2 := nextTokApp src (dst ++ 32 :: (spT ++ 32 :: (dpT ++ 13 :: 10 :: payload)))
    (fun b hb => (hsrc b hb).1)
  have n3 := nextTokApp dst (spT ++ 32 :: (dpT ++ 13 :: 10 :: payload))
    (fun b hb => (hdst b hb).1)
  have n4 := nextTokApp spT (dpT ++ 13 :: 10 :: payload) (fun b hb => (hspb b hb).1)
  have n5 := endTokApp dpT payload (fun b hb => (hdpb b hb).2)
  rw [e0]
  unfold parseV1
  simp only [List.cons_append, List.nil_append] at n0 n1
  simp [n0, n1, n2, n3, n4, n5, hsrcne, hdstne, hsp, hdp]

lemma isHeaderCompleted_mkV1 {src dst spT dpT : List Nat} {sp dp : Nat} (payload : List Nat)
    (hsrcne : src ≠ []) (hdstne : dst ≠ [])
    (hsrc : ∀ b ∈ src, b ≠ 32 ∧ b ≠ 13) (hdst : ∀ b ∈ dst, b ≠ 32 ∧ b ≠ 13)
    (hsp : decDigits spT = some sp) (hdp : decDigits dpT = some dp) :
    isHeaderCompleted (mkV1 src dst spT dpT ++ payload) =
      (true, some { remoteAddress := utf8Str src, remotePort := sp,
                    localAddress := utf8Str dst, localPort := dp }, payload) := by
  have hspb := decDigits_bytes hsp
  have hdpb := decDigits_bytes hdp
  have h5 : (mkV1 src dst spT dpT ++ payload).take 5 = v1Header := by
    simp [mkV1, v1Header]
  have hid : identify (mkV1 src dst spT dpT ++ payload) = .V1 := by
    unfold identify
    rw [if_pos h5]
  have hlit : ∀ b ∈ ([80, 82, 79, 88, 89, 32, 84, 67, 80, 52, 32] : List Nat), b ≠ 13 := by
    decide
  have h32 : ∀ b ∈ ([32] : List Nat), b ≠ 13 := by decide
  have hsrc13 : ∀ b ∈ src, b ≠ 13 := fun b hb => (hsrc b hb).2
  have hdst13 : ∀ b ∈ dst, b ≠ 13 := fun b hb => (hdst b hb).2
  have hsp13 : ∀ b ∈ spT, b ≠ 13 := fun b hb => (hspb b hb).2
  have hdp13 : ∀ b ∈ dpT, b ≠ 13 := fun b hb => (hdpb b hb).2
  have hA : ∀ b ∈ ([80, 82, 79, 88, 89, 32, 84, 67, 80, 52, 32] ++ src ++ [32] ++ dst ++ [32]
      ++ spT ++ [32] ++ dpT : List Nat), b ≠ 13 :=
    memAppNe (memAppNe (memAppNe (memAppNe (memAppNe (memAppNe (memAppNe hlit hsrc13) h32)
      hdst13) h32) hsp13) h32) hdp13
  have e1 : mkV1 src dst spT dpT ++ payload
      = ([80, 82, 79, 88, 89, 32, 84, 67, 80, 52, 32] ++ src ++ [32] ++ dst ++ [32]
          ++ spT ++ [32] ++ dpT) ++ 13 :: 10 :: payload := by
    simp [mkV1, List.append_assoc]
  have hidx : byteIdx 13 (mkV1 src dst spT dpT ++ payload)
      = some ([80, 82, 79, 88, 89, 32, 84, 67, 80, 52, 32] ++ src ++ [32] ++ dst ++ [32]
          ++ spT ++ [32] ++ dpT).length := by
    rw [e1]
    exact byteIdxApp 13 _ (10 :: payload) hA
  have hparse := parseV1_mkV1 payload hsrcne hdstne hsrc hdst hsp hdp
  have hdrop : (mkV1 src dst spT dpT ++ payload).drop
      (([80, 82, 79, 88, 89, 32, 84, 67, 80, 52, 32] ++ src ++ [32] ++ dst ++ [32]
          ++ spT ++ [32] ++ dpT).length + 2) = payload := by
    rw [e1]
    rw [dropAppAdd ([80, 82, 79, 88, 89, 32, 84, 67, 80, 52, 32] ++ src ++ [32]
      ++ dst ++ [32] ++ spT ++ [32] ++ dpT) (13 :: 10 :: payload) 2]
    rfl
  unfold isHeaderCompleted
  rw [hid]
  simp only [hidx, hparse, mapV1ProxyInfo]
  rw [hdrop]

lemma parseV2_mkV2 (cmd tp sa sb sc sd da db dc dd sp dp : Nat) (extra payload : List Nat)
    (hcmd : cmd < 16) (htp : tp < 16) :
    parseV2 (mkV2 cmd tp sa sb sc sd da db dc dd sp dp extra payload)
      = some { proxyAddress := .ipv4 [sa, sb, sc, sd] sp [da, db, dc, dd] dp } := by
  have h12 : (mkV2 cmd tp sa sb sc sd da db dc dd sp dp extra payload).take 12 = v2Header := rfl
  have hdrop12 : (mkV2 cmd tp sa sb sc sd da db dc dd sp dp extra payload).drop 12
      = (32 + cmd) :: (16 + tp) :: ((12 + extra.length) / 256) :: ((12 + extra.length) % 256) ::
        sa :: sb :: sc :: sd :: da :: db :: dc :: dd ::
        (sp / 256) :: (sp % 256) :: (dp / 256) :: (dp % 256) :: (extra ++ payload) := rfl
  have hvc : (32 + cmd) / 16 = 2 := by omega
  have hfam : (16 + tp) / 16 = 1 := by omega
  have halen : (12 + extra.length) / 256 * 256 + (12 + extra.length) % 256
      = 12 + extra.length := by omega
  have hsp2 : sp / 256 * 256 + sp % 256 = sp := by omega
  have hdp2 : dp / 256 * 256 + dp % 256 = dp := by omega
  unfold parseV2
  rw [h12, hdrop12, if_pos rfl]
  simp [hvc, hfam, halen, hsp2, hdp2]
  omega

lemma isHeaderCompleted_mkV2 (cmd tp sa sb sc sd da db dc dd sp dp : Nat)
    (extra payload : List Nat) (hcmd : cmd < 16) (htp : tp < 16) :
    isHeaderCompleted (mkV2 cmd tp sa sb sc sd da db dc dd sp dp extra payload)
      = (true,
         some { remoteAddress :=
                  String.intercalate "." [Nat.repr sa, Nat.repr sb, Nat.repr sc, Nat.repr sd]
                remotePort := sp
                localAddress :=
                  String.intercalate "." [Nat.repr da, Nat.repr db, Nat.repr dc, Nat.repr dd]
                localPort := dp },
         payload) := by
  have hid : identify (mkV2 cmd tp sa sb sc sd da db dc dd sp dp extra payload) = .V2 := by
    have h5 : (mkV2 cmd tp sa sb sc sd da db dc dd sp dp extra payload).take 5
        = [13, 10, 13, 10, 0] := rfl
    have h12 : (mkV2 cmd tp sa sb sc sd da db dc dd sp dp extra payload).take 12 = v2Header := rfl
    unfold identify
    rw [h5, h12]
    simp [v1Header]
  have hg15 : (mkV2 cmd tp sa sb sc sd da db dc dd sp dp extra payload).getD 15 0
      = (12 + extra.length) % 256 := rfl
  have hg14 : (mkV2 cmd tp sa sb sc sd da db dc dd sp dp extra payload).getD 14 0
      = (12 + extra.length) / 256 := rfl
  have hparse := parseV2_mkV2 cmd tp sa sb sc sd da db dc dd sp dp extra payload hcmd htp
  have hdropfinal : (mkV2 cmd tp sa sb sc sd da db dc dd sp dp extra payload).drop
      (16 + ((12 + extra.length) % 256 + (12 + extra.length) / 256 * 256)) = payload := by
    have hidx : 16 + ((12 + extra.length) % 256 + (12 + extra.length) / 256 * 256)
        = 28 + extra.length := by omega
    rw [hidx]
    have e2 : mkV2 cmd tp sa sb sc sd da db dc dd sp dp extra payload
        = ([13, 10, 13, 10, 0, 13, 10, 81, 85, 73, 84, 10,
            32 + cmd, 16 + tp, (12 + extra.length) / 256, (12 + extra.length) % 256,
            sa, sb, sc, sd, da, db, dc, dd,
            sp / 256, sp % 256, dp / 256, dp % 256] : List Nat) ++ (extra ++ payload) := by
      simp [mkV2, List.append_assoc]
    rw [e2]
    have h3 := dropAppAdd ([13, 10, 13, 10, 0, 13, 10, 81, 85, 73, 84, 10,
        32 + cmd, 16 + tp, (12 + extra.length) / 256, (12 + extra.length) % 256,
        sa, sb, sc, sd, da, db, dc, dd,
        sp / 256, sp % 256, dp / 256, dp % 256] : List Nat) (extra ++ payload) extra.length
    simpa [dropApp] using h3
  unfold isHeaderCompleted
  rw [hid]
  simp only [hg15, hg14, hparse, hdropfinal, mapV2ProxyInfo]
  simp

lemma processBuf_mkV1 {opts : ProxyOptions} {src dst spT dpT payload : List Nat} {sp dp : Nat}
    (hsrcne : src ≠ []) (hdstne : dst ≠ [])
    (hsrc : ∀ b ∈ src, b ≠ 32 ∧ b ≠ 13) (hdst : ∀ b ∈ dst, b ≠ 32 ∧ b ≠ 13)
    (hsp : decDigits spT = some sp) (hdp : decDigits dpT = some dp) :
    processBuf opts (mkV1 src dst spT dpT ++ payload)
      = .resolvedProxy { remoteAddress := utf8Str src, remotePort := sp,
                         localAddress := utf8Str dst, localPort := dp } payload := by
  have hhc := isHeaderCompleted_mkV1 payload hsrcne hdstne hsrc hdst hsp hdp
  have h5 : (mkV1 src dst spT dpT ++ payload).take 5 = v1Header := by
    simp [mkV1, v1Header]
  unfold processBuf
  rw [if_neg (fun hpe => hpe.2.1 h5), afterDecode_completed hhc]
  simp

lemma processBuf_mkV2 {opts : ProxyOptions} {cmd tp sa sb sc sd da db dc dd sp dp : Nat}
    {extra payload : List Nat} (hcmd : cmd < 16) (htp : tp < 16) :
    processBuf opts (mkV2 cmd tp sa sb sc sd da db dc dd sp dp extra payload)
      = .resolvedProxy
          { remoteAddress :=
              String.intercalate "." [Nat.repr sa, Nat.repr sb, Nat.repr sc, Nat.repr sd]
            remotePort := sp
            localAddress :=
              String.intercalate "." [Nat.repr da, Nat.repr db, Nat.repr dc, Nat.repr dd]
            localPort := dp } payload := by
  have hhc := isHeaderCompleted_mkV2 cmd tp sa sb sc sd da db dc dd sp dp extra payload hcmd htp
  have h12 : (mkV2 cmd tp sa sb sc sd da db dc dd sp dp extra payload).take 12 = v2Header := rfl
  unfold processBuf
  rw [if_neg (fun hpe => hpe.2.2 h12), afterDecode_completed hhc]
  simp

/-- C1: every valid PROXY v1 input `"PROXY TCP4 <src> <dst> <srcPort>
<dstPort>\r\n"` followed by arbitrary payload bytes, and every valid
PROXY v2 binary header (IPv4 address block, 16-bit big-endian length at
offsets 14-15, consumed bytes `16 +` that length) followed by payload,
resolves with a decoded header: the client (remote) fields are the
source address and port, the proxy (local) fields are the destination
address and port, and the rest of the buffer handed back to the stream
is exactly the payload — no loss, duplication or reordering. -/
theorem c1_roundtrip :
    (∀ (opts : ProxyOptions) (src dst spT dpT payload : List Nat) (sp dp : Nat),
      src ≠ [] → dst ≠ [] →
      (∀ b ∈ src, b ≠ 32 ∧ b ≠ 13) → (∀ b ∈ dst, b ≠ 32 ∧ b ≠ 13) →
      decDigits spT = some sp → decDigits dpT = some dp →
      processBuf opts (mkV1 src dst spT dpT ++ payload)
        = .resolvedProxy { remoteAddress := utf8Str src, remotePort := sp,
                           localAddress := utf8Str dst, localPort := dp } payload)
    ∧ (∀ (opts : ProxyOptions) (cmd tp sa sb sc sd da db dc dd sp dp : Nat)
        (extra payload : List Nat),
      cmd < 16 → tp < 16 →
      processBuf opts (mkV2 cmd tp sa sb sc sd da db dc dd sp dp extra payload)
        = .resolvedProxy
            { remoteAddress :=
                String.intercalate "." [Nat.repr sa, Nat.repr sb, Nat.repr sc, Nat.repr sd]
              remotePort := sp
              localAddress :=
                String.intercalate "." [Nat.repr da, Nat.repr db, Nat.repr dc, Nat.repr dd]
              localPort := dp } payload) := by
  constructor
  · intro opts src dst spT dpT payload sp dp hsrcne hdstne hsrc hdst hsp hdp
    exact processBuf_mkV1 hsrcne hdstne hsrc hdst hsp hdp
  · intro opts cmd tp sa sb sc sd da db dc dd sp dp extra payload hcmd htp
    exact processBuf_mkV2 hcmd htp

/-- C1 witness: the round trip evaluated at `"PROXY TCP4 1.2.3.4
5.6.7.8 77 88\r\n"` + payload `AB`, and at a concrete v2 header with
source `1.2.3.4:77`, destination `5.6.7.8:88`, two trailing
address-block bytes and payload `AB`. -/
theorem c1_roundtrip_witness :
    processBuf defaults
        (mkV1 [49, 46, 50, 46, 51, 46, 52] [53, 46, 54, 46, 55, 46, 56] [55, 55] [56, 56]
          ++ [65, 66])
      = .resolvedProxy { remoteAddress := utf8Str [49, 46, 50, 46, 51, 46, 52], remotePort := 77,
                         localAddress := utf8Str [53, 46, 54, 46, 55, 46, 56], localPort := 88 }
          [65, 66]
    ∧ processBuf defaults (mkV2 1 1 1 2 3 4 5 6 7 8 77 88 [9, 9] [65, 66])
      = .resolvedProxy
          { remoteAddress := String.intercalate "." [Nat.repr 1, Nat.repr 2, Nat.repr 3, Nat.repr 4]
            remotePort := 77
            localAddress := String.intercalate "." [Nat.repr 5, Nat.repr 6, Nat.repr 7, Nat.repr 8]
            localPort := 88 } [65, 66] :=
  ⟨c1_roundtrip.1 defaults [49, 46, 50, 46, 51, 46, 52] [53, 46, 54, 46, 55, 46, 56]
      [55, 55] [56, 56] [65, 66] 77 88 (by decide) (by decide) (by decide) (by decide)
      (by decide) (by decide),
   c1_roundtrip.2 defaults 1 1 1 2 3 4 5 6 7 8 77 88 [9, 9] [65, 66] (by decide) (by decide)⟩

lemma processBuf_mismatch {opts : ProxyOptions} {buf : List Nat} (hlen : 12 ≤ buf.length)
    (h5 : buf.take 5 ≠ v1Header) (h12 : buf.take 12 ≠ v2Header) :
    (opts.strict = true → processBuf opts buf
        = .destroyed "non-PROXY protocol connection"
            (destroyErr opts buf "non-PROXY protocol connection" true))
    ∧ (opts.strict = false → processBuf opts buf = .resolvedNone buf) := by
  have hid : identify buf = .NOT := by
    unfold identify
    rw [if_neg h5, if_neg h12, if_neg (fun hc => absurd hc.1 (by omega)),
      if_neg (fun hc => absurd hc.1 (by omega))]
  have hparts : isHeaderCompleted buf = (true, none, buf) := by
    unfold isHeaderCompleted
    rw [hid]
  constructor
  · intro hs
    unfold processBuf
    rw [if_pos ⟨hlen, h5, h12⟩]
    simp [hs]
  · intro hs
    unfold processBuf
    rw [if_pos ⟨hlen, h5, h12⟩, if_neg (by simp [hs]), afterDecode_completed hparts]
    simp [hs]

/-- C2 counterexample: the claim says the non-PROXY check fires as soon
as the buffer reaches the shorter magic length (5 bytes) and names the
reason "non-PROXY protocol connection"; but on the 5-byte buffer
`"HELLO"`, which matches neither magic, the code destroys with reason
"PROXY protocol malformed header" instead (the prefix check needs 12
bytes, so the decoder's definitely-not-proxy answer is handled first). -/
theorem c2_threshold_cx :
    processBuf defaults [72, 69, 76, 76, 79]
      = .destroyed "PROXY protocol malformed header"
          (some { message := "PROXY protocol malformed header", header := "HELLO" })
    ∧ "PROXY protocol malformed header" ≠ "non-PROXY protocol connection" := by
  exact ⟨by decide, by decide⟩

/-- C2 (amended): the protocol-error check fires only once the buffer is
at least as long as the longer magic prefix (12 bytes, the v2 magic) and
its prefix matches neither magic; then strict mode destroys at once with
reason "non-PROXY protocol connection", and permissive mode resolves
with the entire buffer treated as ordinary payload. -/
theorem c2_threshold :
    ∀ (opts : ProxyOptions) (buf : List Nat),
      12 ≤ buf.length → buf.take 5 ≠ v1Header → buf.take 12 ≠ v2Header →
      (opts.strict = true → processBuf opts buf
          = .destroyed "non-PROXY protocol connection"
              (destroyErr opts buf "non-PROXY protocol connection" true))
      ∧ (opts.strict = false → processBuf opts buf = .resolvedNone buf) :=
  fun _ _ hlen h5 h12 => processBuf_mismatch hlen h5 h12

/-- C2 witness: the 12-byte buffer `"TELNET BABY!"` is rejected as
non-PROXY in strict mode and passed through whole in permissive mode. -/
theorem c2_threshold_witness :
    processBuf defaults [84, 69, 76, 78, 69, 84, 32, 66, 65, 66, 89, 33]
      = .destroyed "non-PROXY protocol connection"
          (destroyErr defaults [84, 69, 76, 78, 69, 84, 32, 66, 65, 66, 89, 33]
            "non-PROXY protocol connection" true)
    ∧ processBuf { defaults with strict := false } [84, 69, 76, 78, 69, 84, 32, 66, 65, 66, 89, 33]
      = .resolvedNone [84, 69, 76, 78, 69, 84, 32, 66, 65, 66, 89, 33] :=
  ⟨(c2_threshold defaults [84, 69, 76, 78, 69, 84, 32, 66, 65, 66, 89, 33]
      (by decide) (by decide) (by decide)).1 rfl,
   (c2_threshold { defaults with strict := false } [84, 69, 76, 78, 69, 84, 32, 66, 65, 66, 89, 33]
      (by decide) (by decide) (by decide)).2 rfl⟩

/-- C3 (code-bug evaluation): on the 32-byte buffer `"PROXY TCP4
1.2.3.4 5.6.7.8 77 88"` — a v1 header whose CRLF terminator has not yet
arrived, well under 107 bytes — the decoder adapter reports the header
completed with no parse result, so strict mode destroys the connection
with "PROXY protocol malformed header" and permissive mode resolves
with the bytes as payload; the interceptor does not stay in
ACCUMULATING as the claim (and the intended accumulate-until-CRLF
behaviour, whose 107-byte guard is otherwise dead code) requires. -/
theorem c3_incomplete_eval :
    processBuf defaults (asciiBytes "PROXY TCP4 1.2.3.4 5.6.7.8 77 88")
      = .destroyed "PROXY protocol malformed header"
          (some { message := "PROXY protocol malformed header",
                  header := "PROXY TCP4 1.2.3.4 5.6.7.8 77 88" })
    ∧ processBuf { defaults with strict := false } (asciiBytes "PROXY TCP4 1.2.3.4 5.6.7.8 77 88")
      = .resolvedNone (asciiBytes "PROXY TCP4 1.2.3.4 5.6.7.8 77 88")
    ∧ (asciiBytes "PROXY TCP4 1.2.3.4 5.6.7.8 77 88").length ≤ 107 := by
  exact ⟨by decide, by decide, by decide⟩

/-- C7 counterexample: the claim says 108 bytes of ASCII with no CR and
no valid v2 length are destroyed with "PROXY header too long" in both
modes; but on 108 `A` bytes strict mode destroys with "non-PROXY
protocol connection" (at the 12-byte prefix check) and permissive mode
resolves the whole buffer as payload — neither mode ever reports
"PROXY header too long". -/
theorem c7_toolong_cx :
    processBuf defaults (List.replicate 108 65)
      = .destroyed "non-PROXY protocol connection"
          (some { message := "non-PROXY protocol connection",
                  header := asciiStr (List.replicate 108 65) })
    ∧ processBuf { defaults with strict := false } (List.replicate 108 65)
      = .resolvedNone (List.replicate 108 65)
    ∧ "non-PROXY protocol connection" ≠ "PROXY header too long" := by
  exact ⟨by decide, by decide, by decide⟩

/-- C7 (amended): the too-long destruction is unreachable — a buffer on
which one pass keeps accumulating is always shorter than 12 bytes (an
undecided magic fragment), so the unresolved buffer can never exceed
107 bytes and no pass ever destroys with "PROXY header too long". -/
theorem c7_toolong_unreachable :
    ∀ (opts : ProxyOptions) (buf : List Nat),
      (processBuf opts buf = .accumulating → buf.length < 12)
      ∧ ∀ e : Option ProtocolError, processBuf opts buf ≠ .destroyed "PROXY header too long" e :=
  fun _ _ => ⟨fun h => processBuf_acc h, fun _ => processBuf_not_toolong⟩

/-- C7 witness: the 1-byte fragment `P` is still accumulating, is
shorter than 12 bytes, and is not destroyed as too long. -/
theorem c7_toolong_unreachable_witness :
    ([80] : List Nat).length < 12
    ∧ processBuf defaults [80] ≠ .destroyed "PROXY header too long" none :=
  ⟨(c7_toolong_unreachable defaults [80]).1 (by decide),
   (c7_toolong_unreachable defaults [80]).2 none⟩

/-- C9 counterexample: the claim says a connection sending only `"PRO"`
is destroyed with "non-PROXY protocol connection"; but on the 3-byte
buffer the pass keeps accumulating (the bytes are still a prefix of the
v1 magic and the 12-byte prefix check cannot fire), so the connection is
not destroyed at all, with or without an error payload. -/
theorem c9_pro_cx :
    processBuf defaults [80, 82, 79] = .accumulating
    ∧ processBuf defaults [80, 82, 79]
        ≠ .destroyed "non-PROXY protocol connection"
            (some { message := "non-PROXY protocol connection", header := "PRO" })
    ∧ processBuf defaults [80, 82, 79] ≠ .destroyed "non-PROXY protocol connection" none := by
  exact ⟨by decide, by decide, by decide⟩

/-- C9 (amended): no buffer shorter than 12 bytes is ever destroyed with
"non-PROXY protocol connection" — that rejection requires at least 12
accumulated bytes whose prefix matches neither magic, so a connection
sending only `"PRO"` keeps accumulating until more bytes arrive. -/
theorem c9_short_fragment :
    ∀ (opts : ProxyOptions) (buf : List Nat) (e : Option ProtocolError),
      buf.length < 12 → processBuf opts buf ≠ .destroyed "non-PROXY protocol connection" e :=
  fun _ _ _ hlen => processBuf_short_not_nonproxy hlen

/-- C9 witness: a 2-byte v2-magic fragment is not rejected as
non-PROXY. -/
theorem c9_short_fragment_witness :
    processBuf defaults [13, 10] ≠ .destroyed "non-PROXY protocol connection" none :=
  c9_short_fragment defaults [13, 10] none (by decide)

/-- C10 counterexample: with no options at all (strict defaults), the
4-byte connection prefix `"PROX"` does not begin with a PROXY magic,
yet the pass keeps accumulating instead of dropping the connection. -/
theorem c10_defaults_cx :
    processBuf (mergeOptions none) [80, 82, 79, 88] = .accumulating
    ∧ processBuf (mergeOptions none) [80, 82, 79, 88]
        ≠ .destroyed "non-PROXY protocol connection"
            (some { message := "non-PROXY protocol connection", header := "PROX" }) := by
  exact ⟨by decide, by decide⟩

/-- C10 (amended): the effective options of a wrap with no argument are
strict, not ignoring strict exceptions, overriding the remote accessors
and with no timeout; a partial options object overrides exactly the
fields it supplies; and under those defaults every buffer of at least 12
bytes whose prefix matches neither magic is destroyed with "non-PROXY
protocol connection" (shorter magic fragments keep accumulating). -/
theorem c10_defaults :
    mergeOptions none
      = { strict := true, ignoreStrictExceptions := false, overrideRemote := true, timeout := none }
    ∧ (∀ (p : PartialProxyOptions) (b : Bool),
        (p.strict = some b → (mergeOptions (some p)).strict = b)
        ∧ (p.strict = none → (mergeOptions (some p)).strict = true)
        ∧ (p.ignoreStrictExceptions = some b → (mergeOptions (some p)).ignoreStrictExceptions = b)
        ∧ (p.ignoreStrictExceptions = none → (mergeOptions (some p)).ignoreStrictExceptions = false)
        ∧ (p.overrideRemote = some b → (mergeOptions (some p)).overrideRemote = b)
        ∧ (p.overrideRemote = none → (mergeOptions (some p)).overrideRemote = true))
    ∧ (∀ p : PartialProxyOptions, (mergeOptions (some p)).timeout = p.timeout)
    ∧ (∀ buf : List Nat, 12 ≤ buf.length → buf.take 5 ≠ v1Header → buf.take 12 ≠ v2Header →
        processBuf (mergeOptions none) buf
          = .destroyed "non-PROXY protocol connection"
              (some { message := "non-PROXY protocol connection", header := asciiStr buf })) := by
  refine ⟨rfl, ?_, ?_, ?_⟩
  · intro p b
    refine ⟨fun h => ?_, fun h => ?_, fun h => ?_, fun h => ?_, fun h => ?_, fun h => ?_⟩ <;>
      simp [mergeOptions, defaults, h]
  · intro p
    cases hp : p.timeout <;> simp [mergeOptions, defaults, hp]
  · intro buf hlen h5 h12
    exact (processBuf_mismatch hlen h5 h12).1 rfl

/-- A sample partial options object: overrides `strict`,
`overrideRemote` and `timeout`, leaves `ignoreStrictExceptions` unset. -/
def p10sample : PartialProxyOptions :=
  { strict := some false
    ignoreStrictExceptions := none
    overrideRemote := some false
    timeout := some 500 }

/-- C10 witness: a partial options object overriding only some fields
keeps the other defaults; and under the no-options defaults the 12-byte
buffer `"GET / HTTP/1"` is dropped as non-PROXY. -/
theorem c10_defaults_witness :
    (mergeOptions (some p10sample)).strict = false
    ∧ (mergeOptions (some p10sample)).ignoreStrictExceptions = false
    ∧ (mergeOptions (some p10sample)).timeout = some 500
    ∧ processBuf (mergeOptions none) [71, 69, 84, 32, 47, 32, 72, 84, 84, 80, 47, 49]
      = .destroyed "non-PROXY protocol connection"
          (some { message := "non-PROXY protocol connection",
                  header := asciiStr [71, 69, 84, 32, 47, 32, 72, 84, 84, 80, 47, 49] }) :=
  ⟨(c10_defaults.2.1 p10sample false).1 rfl,
   (c10_defaults.2.1 p10sample false).2.2.2.1 rfl,
   c10_defaults.2.2.1 p10sample,
   c10_defaults.2.2.2 [71, 69, 84, 32, 47, 32, 72, 84, 84, 80, 47, 49]
      (by decide) (by decide) (by decide)⟩

/-- C5: when a magic prefix matched but the decoder reports the header
malformed (the v1 parse fails on a CR-terminated line, or the v2 parse
fails), strict mode destroys the connection with "PROXY protocol
malformed header", while permissive mode does not terminate it: the
pass resolves with no decoded header and the remainder equal to the
entire accumulated buffer, and no error is produced. -/
theorem c5_malformed :
    ∀ (opts : ProxyOptions) (buf : List Nat),
      ((buf.take 5 = v1Header ∧ (∃ i, byteIdx 13 buf = some i) ∧ parseV1 buf = none)
        ∨ (buf.take 12 = v2Header ∧ parseV2 buf = none)) →
      (opts.strict = true → processBuf opts buf
          = .destroyed "PROXY protocol malformed header"
              (destroyErr opts buf "PROXY protocol malformed header" true))
      ∧ (opts.strict = false → processBuf opts buf = .resolvedNone buf) := by
  intro opts buf hmal
  have hmain : isHeaderCompleted buf = (true, none, buf)
      ∧ ¬(12 ≤ buf.length ∧ buf.take 5 ≠ v1Header ∧ buf.take 12 ≠ v2Header) := by
    rcases hmal with ⟨h5, ⟨i, hi⟩, hp⟩ | ⟨h12, hp⟩
    · have hid : identify buf = .V1 := by
        unfold identify
        rw [if_pos h5]
      refine ⟨?_, fun hc => hc.2.1 h5⟩
      unfold isHeaderCompleted
      rw [hid, hi, hp]
    · have h5ne : buf.take 5 ≠ v1Header := by
        have ht : buf.take 5 = v2Header.take 5 := by
          rw [← h12, List.take_take]
          norm_num
        rw [ht]
        decide
      have hid : identify buf = .V2 := by
        unfold identify
        rw [if_neg h5ne, if_pos h12]
      refine ⟨?_, fun hc => hc.2.2 h12⟩
      unfold isHeaderCompleted
      rw [hid, hp]
  obtain ⟨hparts, hpe⟩ := hmain
  constructor
  · intro hs
    unfold processBuf
    rw [if_neg hpe, afterDecode_completed hparts]
    simp [hs]
  · intro hs
    unfold processBuf
    rw [if_neg hpe, afterDecode_completed hparts]
    simp [hs]

/-- C5 witness: the malformed, CR-terminated header `"PROXY HACK
ATTEMPT\r\n"` is destroyed with "PROXY protocol malformed header" in
strict mode and resolved whole with no error in permissive mode. -/
theorem c5_malformed_witness :
    processBuf defaults
        [80, 82, 79, 88, 89, 32, 72, 65, 67, 75, 32, 65, 84, 84, 69, 77, 80, 84, 13, 10]
      = .destroyed "PROXY protocol malformed header"
          (destroyErr defaults
            [80, 82, 79, 88, 89, 32, 72, 65, 67, 75, 32, 65, 84, 84, 69, 77, 80, 84, 13, 10]
            "PROXY protocol malformed header" true)
    ∧ processBuf { defaults with strict := false }
        [80, 82, 79, 88, 89, 32, 72, 65, 67, 75, 32, 65, 84, 84, 69, 77, 80, 84, 13, 10]
      = .resolvedNone
          [80, 82, 79, 88, 89, 32, 72, 65, 67, 75, 32, 65, 84, 84, 69, 77, 80, 84, 13, 10] :=
  ⟨(c5_malformed defaults
      [80, 82, 79, 88, 89, 32, 72, 65, 67, 75, 32, 65, 84, 84, 69, 77, 80, 84, 13, 10]
      (Or.inl ⟨by decide, ⟨18, by decide⟩, by decide⟩)).1 rfl,
   (c5_malformed { defaults with strict := false }
      [80, 82, 79, 88, 89, 32, 72, 65, 67, 75, 32, 65, 84, 84, 69, 77, 80, 84, 13, 10]
      (Or.inl ⟨by decide, ⟨18, by decide⟩, by decide⟩)).2 rfl⟩

/-- C6: when a pass resolves with a decoded header, the socket gains the
four derived fields — client address/port from the header's remote side
and proxy address/port from its local side; with `overrideRemote` the
standard remote accessors return the client values, without it they keep
the physical peer's values.  When a pass resolves with no decoded
header, the socket is untouched. -/
theorem c6_socket_props :
    (∀ (opts : ProxyOptions) (sock : SocketState) (buf : List Nat) (i : ProxyHeaders)
        (rest : List Nat) (s2 : SocketState),
      processConn opts sock buf = (.resolvedProxy i rest, s2) →
      s2.clientAddress = some i.remoteAddress ∧ s2.clientPort = some i.remotePort
      ∧ s2.proxyAddress = some i.localAddress ∧ s2.proxyPort = some i.localPort
      ∧ (opts.overrideRemote = true →
          s2.remoteAddress = i.remoteAddress ∧ s2.remotePort = i.remotePort)
      ∧ (opts.overrideRemote = false →
          s2.remoteAddress = sock.remoteAddress ∧ s2.remotePort = sock.remotePort))
    ∧ (∀ (opts : ProxyOptions) (sock : SocketState) (buf : List Nat)
        (rest : List Nat) (s2 : SocketState),
      processConn opts sock buf = (.resolvedNone rest, s2) → s2 = sock) := by
  constructor
  · intro opts sock buf i rest s2 h
    unfold processConn at h
    cases hpb : processBuf opts buf with
    | accumulating => rw [hpb] at h; simp at h
    | destroyed r e => rw [hpb] at h; simp at h
    | resolvedNone r => rw [hpb] at h; simp at h
    | resolvedProxy i0 r0 =>
      rw [hpb] at h
      simp at h
      obtain ⟨⟨hi, hr⟩, hs⟩ := h
      subst hi
      subst hs
      unfold defineSocketProperties
      cases ho : opts.overrideRemote <;> simp [ho]
  · intro opts sock buf rest s2 h
    unfold processConn at h
    cases hpb : processBuf opts buf with
    | accumulating => rw [hpb] at h; simp at h
    | destroyed r e => rw [hpb] at h; simp at h
    | resolvedProxy i0 r0 => rw [hpb] at h; simp at h
    | resolvedNone r =>
      rw [hpb] at h
      simp at h
      exact h.2.symm

/-- C6 witness: the concrete v1 connection `"PROXY TCP4 1.2.3.4 5.6.7.8
77 88\r\n"` + `A` on a socket whose physical peer is `9.9.9.9:1234`:
resolution installs the four derived fields and, with the default
`overrideRemote`, redefines the remote accessors to the client values. -/
theorem c6_socket_props_witness :
    ({ remoteAddress := "1.2.3.4", remotePort := 77, clientAddress := some "1.2.3.4",
       clientPort := some 77, proxyAddress := some "5.6.7.8",
       proxyPort := some 88 } : SocketState).clientAddress
        = some ({ remoteAddress := "1.2.3.4", remotePort := 77, localAddress := "5.6.7.8",
                  localPort := 88 } : ProxyHeaders).remoteAddress
    ∧ ({ remoteAddress := "1.2.3.4", remotePort := 77, clientAddress := some "1.2.3.4",
         clientPort := some 77, proxyAddress := some "5.6.7.8",
         proxyPort := some 88 } : SocketState).clientPort
        = some ({ remoteAddress := "1.2.3.4", remotePort := 77, localAddress := "5.6.7.8",
                  localPort := 88 } : ProxyHeaders).remotePort
    ∧ ({ remoteAddress := "1.2.3.4", remotePort := 77, clientAddress := some "1.2.3.4",
         clientPort := some 77, proxyAddress := some "5.6.7.8",
         proxyPort := some 88 } : SocketState).proxyAddress
        = some ({ remoteAddress := "1.2.3.4", remotePort := 77, localAddress := "5.6.7.8",
                  localPort := 88 } : ProxyHeaders).localAddress
    ∧ ({ remoteAddress := "1.2.3.4", remotePort := 77, clientAddress := some "1.2.3.4",
         clientPort := some 77, proxyAddress := some "5.6.7.8",
         proxyPort := some 88 } : SocketState).proxyPort
        = some ({ remoteAddress := "1.2.3.4", remotePort := 77, localAddress := "5.6.7.8",
                  localPort := 88 } : ProxyHeaders).localPort
    ∧ (defaults.overrideRemote = true →
        ({ remoteAddress := "1.2.3.4", remotePort := 77, clientAddress := some "1.2.3.4",
           clientPort := some 77, proxyAddress := some "5.6.7.8",
           proxyPort := some 88 } : SocketState).remoteAddress
            = ({ remoteAddress := "1.2.3.4", remotePort := 77, localAddress := "5.6.7.8",
                 localPort := 88 } : ProxyHeaders).remoteAddress
          ∧ ({ remoteAddress := "1.2.3.4", remotePort := 77, clientAddress := some "1.2.3.4",
               clientPort := some 77, proxyAddress := some "5.6.7.8",
               proxyPort := some 88 } : SocketState).remotePort
              = ({ remoteAddress := "1.2.3.4", remotePort := 77, localAddress := "5.6.7.8",
                   localPort := 88 } : ProxyHeaders).remotePort)
    ∧ (defaults.overrideRemote = false →
        ({ remoteAddress := "1.2.3.4", remotePort := 77, clientAddress := some "1.2.3.4",
           clientPort := some 77, proxyAddress := some "5.6.7.8",
           proxyPort := some 88 } : SocketState).remoteAddress
            = ({ remoteAddress := "9.9.9.9", remotePort := 1234, clientAddress := none,
                 clientPort := none, proxyAddress := none,
                 proxyPort := none } : SocketState).remoteAddress
          ∧ ({ remoteAddress := "1.2.3.4", remotePort := 77, clientAddress := some "1.2.3.4",
               clientPort := some 77, proxyAddress := some "5.6.7.8",
               proxyPort := some 88 } : SocketState).remotePort
              = ({ remoteAddress := "9.9.9.9", remotePort := 1234, clientAddress := none,
                   clientPort := none, proxyAddress := none,
                   proxyPort := none } : SocketState).remotePort) :=
  c6_socket_props.1 defaults
    { remoteAddress := "9.9.9.9", remotePort := 1234, clientAddress := none,
      clientPort := none, proxyAddress := none, proxyPort := none }
    (mkV1 [49, 46, 50, 46, 51, 46, 52] [53, 46, 54, 46, 55, 46, 56] [55, 55] [56, 56] ++ [65])
    { remoteAddress := "1.2.3.4", remotePort := 77, localAddress := "5.6.7.8", localPort := 88 }
    [65]
    { remoteAddress := "1.2.3.4", remotePort := 77, clientAddress := some "1.2.3.4",
      clientPort := some 77, proxyAddress := some "5.6.7.8", proxyPort := some 88 }
    (by decide)

lemma emitOverride_parts {s : EmitState} {e : String} (hr : s.emitRestored = false)
    (hene : e ≠ "end") :
    (emitOverride s e).emitRestored = false
    ∧ (emitOverride s e).history = s.history.map (fun h => h ++ [e])
    ∧ (emitOverride s e).delivered = s.delivered ++ if e = "timeout" then [e] else [] := by
  by_cases hrd : e = "readable"
  · subst hrd
    simp [emitOverride, hr]
  · by_cases htm : e = "timeout"
    · subst htm
      simp [emitOverride, hr]
    · simp [emitOverride, hr, hrd, htm, hene]

lemma runAux (evs : List String) :
    ∀ s : EmitState, s.emitRestored = false → (∀ e ∈ evs, e ≠ "end") →
      (evs.foldl emitOverride s).emitRestored = false
      ∧ (evs.foldl emitOverride s).history = s.history.map (fun h => h ++ evs)
      ∧ (evs.foldl emitOverride s).delivered
          = s.delivered ++ evs.filter (fun e => e == "timeout") := by
  induction evs with
  | nil =>
    intro s hr _
    refine ⟨hr, ?_, by simp⟩
    cases hh : s.history <;> simp [hh]
  | cons e rest ih =>
    intro s hr hne
    have hp := emitOverride_parts hr (hne e (by simp))
    have ih2 := ih (emitOverride s e) hp.1 (fun x hx => hne x (by simp [hx]))
    rw [List.foldl_cons]
    refine ⟨ih2.1, ?_, ?_⟩
    · rw [ih2.2.1, hp.2.1]
      cases hh : s.history <;> simp [hh]
    · rw [ih2.2.2, hp.2.2]
      by_cases htm : e = "timeout" <;> simp [htm, List.filter_cons]

/-- C4 counterexample: two readable events recorded during interception
are never replayed — on the resolution path the emitter is restored
before `restore` runs, so its guard short-circuits and the recorded
history is dropped (delivered stays empty, even by a later restore); and
a recorded timeout event on the destroy path reaches the original event
path twice (once forwarded at record time, once replayed). -/
theorem c4_replay_cx :
    (runEvents ["readable", "readable"]).history = some ["readable", "readable"]
    ∧ (resolveRestore (runEvents ["readable", "readable"])).delivered = []
    ∧ (restore (resolveRestore (runEvents ["readable", "readable"]))).delivered = []
    ∧ (restore (runEvents ["timeout"])).delivered = ["timeout", "timeout"] := by
  exact ⟨by decide, by decide, by decide, by decide⟩

/-- C4 (amended): while interception is in progress every event is
recorded in order and none is replayed (only timeout events are
additionally forwarded immediately); an effective `restore` — reachable
on the destroy path and the end-before-data path, where the emitter has
not been restored yet — replays the recorded history in order, exactly
once (a second restore is a no-op); but on the normal resolution path
the emitter is restored first, so the `restore` call there replays
nothing and the recorded events are dropped. -/
theorem c4_replay :
    (∀ evs : List String, (∀ e ∈ evs, e ≠ "end") →
      (runEvents evs).history = some evs
      ∧ (runEvents evs).delivered = evs.filter (fun e => e == "timeout")
      ∧ (restore (runEvents evs)).delivered = evs.filter (fun e => e == "timeout") ++ evs
      ∧ (restore (runEvents evs)).history = none
      ∧ resolveRestore (runEvents evs) = { runEvents evs with emitRestored := true })
    ∧ (∀ s : EmitState, restore (restore s) = restore s) := by
  constructor
  · intro evs hne
    have h := runAux evs initState rfl hne
    have hh : (runEvents evs).history = some evs := by
      have := h.2.1
      simpa [runEvents, initState] using this
    have hd : (runEvents evs).delivered = evs.filter (fun e => e == "timeout") := by
      have := h.2.2
      simpa [runEvents, initState] using this
    have hr : (runEvents evs).emitRestored = false := h.1
    refine ⟨hh, hd, ?_, ?_, ?_⟩
    · unfold restore
      rw [hr, hh]
      simp [hd]
    · unfold restore
      rw [hr, hh]
      simp
    · unfold resolveRestore restore
      simp
  · intro s
    unfold restore
    by_cases hr : s.emitRestored
    · simp [hr]
    · simp only [hr]
      cases hh : s.history with
      | none => simp [hh, hr]
      | some h => simp [hh, hr]

/-- C4 witness: for the recorded sequence readable, timeout, data the
history holds exactly those events in order, and an effective restore
delivers the pre-recorded timeout forward plus the whole history in
recorded order. -/
theorem c4_replay_witness :
    (runEvents ["readable", "timeout", "data"]).history = some ["readable", "timeout", "data"]
    ∧ (restore (runEvents ["readable", "timeout", "data"])).delivered
        = List.filter (fun e => e == "timeout") ["readable", "timeout", "data"]
            ++ ["readable", "timeout", "data"] := by
  have h := c4_replay.1 ["readable", "timeout", "data"] (by decide)
  exact ⟨h.1, h.2.2.1⟩

lemma afterDecode_incomplete_true {opts : ProxyOptions} {buf : List Nat}
    (hparts : isHeaderCompleted buf = (false, none, buf)) :
    afterDecode opts buf true
      = if opts.strict then
          .destroyed "PROXY protocol malformed header"
            (destroyErr opts buf "PROXY protocol malformed header" true)
        else .resolvedNone buf := by
  unfold afterDecode
  rw [hparts]
  cases hs : opts.strict <;> simp [hs]

lemma afterDecode_incomplete_false {opts : ProxyOptions} {buf : List Nat}
    (hparts : isHeaderCompleted buf = (false, none, buf)) :
    afterDecode opts buf false
      = if 107 < buf.length then
          .destroyed "PROXY header too long" (destroyErr opts buf "PROXY header too long" false)
        else .accumulating := by
  unfold afterDecode
  rw [hparts]
  simp

lemma afterDecode_destroyed_inv {opts : ProxyOptions} {buf : List Nat} {pe : Bool}
    {r : String} {e : Option ProtocolError}
    (h : afterDecode opts buf pe = .destroyed r e) :
    (r = "PROXY protocol malformed header" ∧ e = destroyErr opts buf r true)
    ∨ (r = "PROXY header too long" ∧ e = destroyErr opts buf r false) := by
  by_cases hcf : (isHeaderCompleted buf).1 = false
  · have hparts := hc_false_parts hcf
    cases pe with
    | true =>
      rw [afterDecode_incomplete_true hparts] at h
      split at h
      · injection h with h1 h2
        subst h1
        exact Or.inl ⟨rfl, h2.symm⟩
      · exact absurd h (by simp)
    | false =>
      rw [afterDecode_incomplete_false hparts] at h
      split at h
      · injection h with h1 h2
        subst h1
        exact Or.inr ⟨rfl, h2.symm⟩
      · exact absurd h (by simp)
  · rcases hhc : isHeaderCompleted buf with ⟨c, info, rest⟩
    rw [hhc] at hcf
    simp at hcf
    subst hcf
    rw [afterDecode_completed hhc] at h
    split at h
    · injection h with h1 h2
      subst h1
      exact Or.inl ⟨rfl, h2.symm⟩
    · cases info with
      | some i => split at h <;> (try split at h) <;> simp at h
      | none => simp at h

lemma processBuf_destroyed_inv {opts : ProxyOptions} {buf : List Nat}
    {r : String} {e : Option ProtocolError}
    (h : processBuf opts buf = .destroyed r e) :
    (r = "non-PROXY protocol connection" ∧ e = destroyErr opts buf r true)
    ∨ (r = "PROXY protocol malformed header" ∧ e = destroyErr opts buf r true)
    ∨ (r = "PROXY header too long" ∧ e = destroyErr opts buf r false) := by
  unfold processBuf at h
  split at h
  · split at h
    · injection h with h1 h2
      subst h1
      exact Or.inl ⟨rfl, h2.symm⟩
    · exact Or.inr (afterDecode_destroyed_inv h)
  · exact Or.inr (afterDecode_destroyed_inv h)

/-- C8: every destruction carries the error argument computed by
`destroy` — for the two strict-mode rejection reasons the error built
with `wasStrict`, for the too-long reason the error built without it;
and that error always carries the reason together with the accumulated
buffer as ASCII header text, except that a strict-mode rejection under
`ignoreStrictExceptions` carries no error at all, while the
non-strict (header-too-long) destruction carries the error even then. -/
theorem c8_error_payload :
    (∀ (opts : ProxyOptions) (buf : List Nat) (r : String) (e : Option ProtocolError),
      processBuf opts buf = .destroyed r e →
      (r ≠ "PROXY header too long" → e = destroyErr opts buf r true)
      ∧ (r = "PROXY header too long" → e = destroyErr opts buf r false))
    ∧ (∀ (opts : ProxyOptions) (buf : List Nat) (m : String),
      destroyErr opts buf m false = some { message := m, header := asciiStr buf }
      ∧ (opts.ignoreStrictExceptions = false →
          destroyErr opts buf m true = some { message := m, header := asciiStr buf })
      ∧ (opts.ignoreStrictExceptions = true → destroyErr opts buf m true = none)) := by
  constructor
  · intro opts buf r e h
    rcases processBuf_destroyed_inv h with ⟨h1, h2⟩ | ⟨h1, h2⟩ | ⟨h1, h2⟩
    · subst h1
      exact ⟨fun _ => h2, fun hc => absurd hc (by decide)⟩
    · subst h1
      exact ⟨fun _ => h2, fun hc => absurd hc (by decide)⟩
    · subst h1
      exact ⟨fun hc => absurd rfl hc, fun _ => h2⟩
  · intro opts buf m
    refine ⟨rfl, fun hig => ?_, fun hig => ?_⟩ <;> simp [destroyErr, hig]

/-- C8 witness: with `ignoreStrictExceptions` set, the strict rejection
of the 12-byte non-PROXY buffer `"XELLOXELLOXX"` carries no error
payload, while a too-long destruction would still carry the reason and
the buffer text. -/
theorem c8_error_payload_witness :
    (none : Option ProtocolError)
        = destroyErr { defaults with ignoreStrictExceptions := true }
            [88, 69, 76, 76, 79, 88, 69, 76, 76, 79, 88, 88] "non-PROXY protocol connection" true
    ∧ destroyErr { defaults with ignoreStrictExceptions := true }
        [88, 69, 76, 76, 79, 88, 69, 76, 76, 79, 88, 88] "PROXY header too long" false
      = some { message := "PROXY header too long",
               header := asciiStr [88, 69, 76, 76, 79, 88, 69, 76, 76, 79, 88, 88] } :=
  ⟨(c8_error_payload.1 { defaults with ignoreStrictExceptions := true }
      [88, 69, 76, 76, 79, 88, 69, 76, 76, 79, 88, 88] "non-PROXY protocol connection" none
      (by decide)).1 (by decide),
   (c8_error_payload.2 { defaults with ignoreStrictExceptions := true }
      [88, 69, 76, 76, 79, 88, 69, 76, 76, 79, 88, 88] "PROXY header too long").1⟩

end ProxyWrap
